import Mathlib

/-!
Shallow embedding of `src/main.py` (active revision, lines 1-165) of the
notion_stock_updater repository, together with a model of the auto-buy
decision component that the specification documents but whose code is not
present under `src/`.

External effects (HTTP fetches, the database patch) are modelled by oracle
values passed in explicitly: a fetch that may fail is an `Option` holding
the data the Python code would have extracted from the response.
Prices and rates are modelled as rationals.
-/

namespace StockUpdater

/-- Pythonic truthiness of an optional string: `None` and `""` are falsy
(`if not item_code`, `if not NOTION_API_KEY`, ...). -/
def falsy : Option String → Bool
  | Option.none => true
  | Option.some s => s.isEmpty

/-- Remove every comma from a string (`price_str = price_element.text.replace(",", "")`). -/
def stripCommas (s : String) : String :=
  ⟨s.data.filter (fun c => c != ',')⟩

/-- Numeric value of a list of decimal digit characters. -/
def decimalVal (cs : List Char) : Nat :=
  cs.foldl (fun a c => a * 10 + (c.toNat - 48)) 0

/-- Model of Python `int(s)` restricted to what the scraper can see:
an optional sign followed by a nonempty run of decimal digits parses to the
corresponding integer; everything else (in particular decimal strings such
as `"1234.56"`) raises `ValueError`, modelled as `Option.none`. -/
def pyInt? (s : String) : Option Int :=
  match s.data with
  | [] => Option.none
  | c :: rest =>
    if c = '-' then
      if !rest.isEmpty && rest.all Char.isDigit then
        Option.some (-(decimalVal rest : Int))
      else Option.none
    else if c = '+' then
      if !rest.isEmpty && rest.all Char.isDigit then
        Option.some (decimalVal rest : Int)
      else Option.none
    else if (c :: rest).all Char.isDigit then
      Option.some (decimalVal (c :: rest) : Int)
    else Option.none

/-- `get_usd_to_krw_rate`: the yfinance close for `KRW=X`, modelled by the
oracle `fetch` (`Option.none` = the `try` block raised: network error, empty
series, parse error). On failure the hardcoded fallback `1300.0` is
returned; the function is total, so no exception reaches the caller. -/
def get_usd_to_krw_rate (fetch : Option ℚ) : ℚ :=
  match fetch with
  | Option.some r => r
  | Option.none => 1300

/-- `get_domestic_price`: scrape of the Naver quote page.  The oracle
`fetch` is `Option.none` when the HTTP request itself fails, and
`Option.some Option.none` when the response arrived but the price node is
missing (`select_one` returned `None`); otherwise it carries the node's
text.  The text, commas stripped, is parsed with Python `int()`; the
`except` block turns a parse failure into `0`. -/
def get_domestic_price (fetch : Option (Option String)) : Int :=
  match fetch with
  | Option.none => 0
  | Option.some Option.none => 0
  | Option.some (Option.some txt) =>
    match pyInt? (stripCommas txt) with
    | Option.some n => n
    | Option.none => 0

/-- `get_overseas_price`: the yfinance one-day close series for the ticker,
modelled by the oracle `fetch` (`Option.none` = the fetch raised).  The code
takes `['Close'].iloc[0]`, i.e. the head of the series; `iloc[0]` on an
empty series raises, which the `except` block turns into `0.0`.  Note the
active revision returns the close value verbatim: there is no rounding. -/
def get_overseas_price (fetch : Option (List ℚ)) : ℚ :=
  match fetch with
  | Option.none => 0
  | Option.some [] => 0
  | Option.some (p :: _) => p

/-- Round to 2 decimal places, stated from the specification's words for
comparison with `get_overseas_price`; the active code never rounds. -/
def round2 (q : ℚ) : ℚ :=
  ((round (q * 100) : ℤ) : ℚ) / 100

/-- Round to 4 decimal places, as the specification prescribes for the
auto-buy quantity. -/
def round4 (q : ℚ) : ℚ :=
  ((round (q * 10000) : ℤ) : ℚ) / 10000

/-- Observable I/O actions of one run of `main`, in program order.
Console logging other than the two explicitly claimed reports is omitted:
the spec rules it out as a contract surface. -/
inductive Event where
  | rateFetched : Event
  | dbQueried : Event
  | writeAttempt (pageId : String) (payload : List (String × ℚ)) : Event
  | writeErrorLogged (pageId : String) : Event
  | configErrorReported : Event
  deriving DecidableEq

/-- One database record as `main` reads it: `page["id"]`, the content of
the first `종목코드` rich-text fragment (`Option.none` when the list is
empty), and the `분류` select name (`Option.none` when absent).  The
`종목명` title only feeds log lines and is omitted. -/
structure Page where
  id : String
  itemCode : Option String
  category : Option String
  deriving DecidableEq

/-- Oracles for the external world one run observes: the `KRW=X` close,
the Naver scrape per code, the yfinance close series per ticker, and
whether each page's patch request succeeds. -/
structure Env where
  rateFetch : Option ℚ
  domFetch : String → Option (Option String)
  ovsFetch : String → Option (List ℚ)
  writeOk : String → Bool

/-- The JSON property patch `update_notion_page` sends: exactly the two
properties `현재가` (current price) and `환율` (exchange rate). -/
def updatePayload (price exchange_rate : ℚ) : List (String × ℚ) :=
  [("현재가", price), ("환율", exchange_rate)]

/-- `update_notion_page`: attempts the patch; `raise_for_status` failures
are caught by the `except` block and only logged, so the function always
returns to the loop. -/
def update_notion_page (ok : Bool) (pageId : String) (price exchange_rate : ℚ) :
    List Event :=
  if ok then
    [Event.writeAttempt pageId (updatePayload price exchange_rate)]
  else
    [Event.writeAttempt pageId (updatePayload price exchange_rate),
      Event.writeErrorLogged pageId]

/-- The price the loop body resolves for a record: the category dispatch of
`main` (`current_price = 0` initially; `국내` → scrape, `해외` → yfinance,
anything else leaves `0`). -/
def resolvedPrice (env : Env) (code category : String) : ℚ :=
  if category = "국내" then ((get_domestic_price (env.domFetch code) : ℤ) : ℚ)
  else if category = "해외" then get_overseas_price (env.ovsFetch code)
  else 0

/-- One iteration of the `for page in pages` loop: skip when code or
category is falsy, otherwise resolve the price and update the page only
when `current_price > 0`. -/
def processPage (env : Env) (exchange_rate : ℚ) (page : Page) : List Event :=
  if falsy page.itemCode || falsy page.category then []
  else
    let price := resolvedPrice env (page.itemCode.getD "") (page.category.getD "")
    if 0 < price then
      update_notion_page (env.writeOk page.id) page.id price exchange_rate
    else []

/-- `main` as a trace of I/O events: the secrets guard, the single rate
fetch, the database query (whose result is the oracle `pages`; a query
failure is the same as an empty list), then the per-page loop.  The
source's `exchange_rate is None` check is dead code because
`get_usd_to_krw_rate` always returns a number. -/
def mainRun (notionApiKey databaseId : Option String) (env : Env)
    (pages : List Page) : List Event :=
  if falsy notionApiKey || falsy databaseId then [Event.configErrorReported]
  else
    let exchange_rate := get_usd_to_krw_rate env.rateFetch
    if pages.isEmpty then [Event.rateFetched, Event.dbQueried]
    else
      Event.rateFetched :: Event.dbQueried ::
        (pages.map (processPage env exchange_rate)).flatten

/-- The write calls of a trace, in order: page id and payload of every
attempted patch. -/
def writesOf (trace : List Event) : List (String × List (String × ℚ)) :=
  trace.filterMap fun e =>
    match e with
    | Event.writeAttempt pageId payload => Option.some (pageId, payload)
    | _ => Option.none

/-- Modelled from the spec: the category of a holding, deciding the price
strategy and the currency normalization of the auto-buy rule.  No auto-buy
code exists under `src/`; sections 3 and 4.3 of the spec are the source. -/
inductive AutoBuy.Category where
  | domestic : AutoBuy.Category
  | overseas : AutoBuy.Category
  deriving DecidableEq

/-- Modelled from the spec: the recurring-purchase frequency,
`{daily, specific-weekday, none}`. -/
inductive AutoBuy.BuyFrequency where
  | daily : AutoBuy.BuyFrequency
  | specificWeekday : AutoBuy.BuyFrequency
  | never : AutoBuy.BuyFrequency
  deriving DecidableEq

/-- Modelled from the spec: the auto-buy fields of a holding (section 3 of
the spec); the identification fields play no role in the decision. -/
structure AutoBuy.Holding where
  autoBuyEnabled : Bool
  buyFrequency : AutoBuy.BuyFrequency
  lastBuyDate : Option String
  fixedAmount : ℚ
  fixedQuantity : ℚ
  currentQuantity : ℚ
  category : AutoBuy.Category
  deriving DecidableEq

/-- Modelled from the spec: eligibility gate of `decide()` —
`autoBuyEnabled == true` and `lastBuyDate != today`. -/
def AutoBuy.eligibilityGate (h : AutoBuy.Holding) (today : String) : Bool :=
  h.autoBuyEnabled && (h.lastBuyDate != Option.some today)

/-- Modelled from the spec: frequency gate of `decide()` — fires daily, or
on the configured weekday when today's weekday matches. -/
def AutoBuy.frequencyGate (h : AutoBuy.Holding) (isWeekdayMatch : Bool) : Bool :=
  match h.buyFrequency with
  | AutoBuy.BuyFrequency.daily => true
  | AutoBuy.BuyFrequency.specificWeekday => isWeekdayMatch
  | AutoBuy.BuyFrequency.never => false

/-- Modelled from the spec: the unrounded purchase quantity —
`fixedAmount / costPerUnit` (value-based takes priority), else
`fixedQuantity`, else `0`; `costPerUnit` is `price * rate` for an
overseas holding and `price` otherwise. -/
def AutoBuy.rawAddQuantity (h : AutoBuy.Holding) (price rate : ℚ) : ℚ :=
  if 0 < h.fixedAmount then
    h.fixedAmount /
      (if h.category = AutoBuy.Category.overseas then price * rate else price)
  else if 0 < h.fixedQuantity then h.fixedQuantity
  else 0

/-- Modelled from the spec: `decide(holding, today, isWeekdayMatch, price,
rate) -> (shouldBuy, addQuantity)`.  A non-positive price suppresses any
purchase; the quantity is rounded to 4 decimal places; a non-positive
rounded quantity means no purchase. -/
def AutoBuy.decide (h : AutoBuy.Holding) (today : String) (isWeekdayMatch : Bool)
    (price rate : ℚ) : Bool × ℚ :=
  if AutoBuy.eligibilityGate h today && AutoBuy.frequencyGate h isWeekdayMatch then
    if 0 < price then
      let addQuantity := round4 (AutoBuy.rawAddQuantity h price rate)
      if 0 < addQuantity then (true, addQuantity) else (false, addQuantity)
    else (false, 0)
  else (false, 0)

/-- Modelled from the spec: the record writer's effect on the holding when
the decision fires — `lastBuyDate` becomes today and `currentQuantity`
becomes `round(previousQuantity + addQuantity, 4)`; otherwise the holding
is untouched. -/
def AutoBuy.applyRun (h : AutoBuy.Holding) (today : String) (isWeekdayMatch : Bool)
    (price rate : ℚ) : AutoBuy.Holding :=
  let d := AutoBuy.decide h today isWeekdayMatch price rate
  if d.1 then
    { h with lastBuyDate := Option.some today,
             currentQuantity := round4 (h.currentQuantity + d.2) }
  else h

/-- Modelled from the spec: how many times the decision fires for one
holding across a sequence of pipeline runs on the same calendar day, the
written-back state feeding each later run; each run may see its own
weekday flag, price and rate. -/
def AutoBuy.fireCount (today : String) :
    AutoBuy.Holding → List (Bool × ℚ × ℚ) → Nat
  | _, [] => 0
  | h, (w, price, rate) :: rest =>
    (if (AutoBuy.decide h today w price rate).1 then 1 else 0) +
      AutoBuy.fireCount today (AutoBuy.applyRun h today w price rate) rest

/-- C4: on every failure of the exchange-rate fetch the function returns
the hardcoded fallback 1300 and, being a total function, never raises to
its caller; on success it returns the fetched close verbatim, hence a
positive value whenever the quoted market rate is positive. -/
theorem rate_fallback_and_success (fetch : Option ℚ) :
    (fetch = Option.none → get_usd_to_krw_rate fetch = 1300) ∧
    (∀ r : ℚ, fetch = Option.some r → get_usd_to_krw_rate fetch = r) ∧
    (∀ r : ℚ, fetch = Option.some r → 0 < r → 0 < get_usd_to_krw_rate fetch) := by
  refine ⟨fun h => ?_, fun r h => ?_, fun r h hr => ?_⟩
  · rw [h]; rfl
  · rw [h]; rfl
  · rw [h]; exact hr

/-- Witness for `rate_fallback_and_success` at concrete fetches. -/
theorem rate_fallback_witness :
    get_usd_to_krw_rate Option.none = 1300 ∧
    get_usd_to_krw_rate (Option.some 1350) = 1350 ∧
    (0 : ℚ) < get_usd_to_krw_rate (Option.some 1350) :=
  ⟨(rate_fallback_and_success Option.none).1 rfl,
   (rate_fallback_and_success (Option.some 1350)).2.1 1350 rfl,
   (rate_fallback_and_success (Option.some 1350)).2.2 1350 rfl (by decide)⟩

/-- C5 counterexample: the active `get_overseas_price` returns the close
verbatim; on the close 1.234 the result differs from the value rounded to
2 decimal places that the claim prescribes. -/
theorem overseas_price_not_rounded :
    get_overseas_price (Option.some [(1234 : ℚ)/1000]) ≠ round2 ((1234 : ℚ)/1000) := by
  norm_num [get_overseas_price, round2, round_eq]

/-- C5 (amended): the overseas price fetch returns the first entry of the
one-day close series verbatim (no rounding), and 0 on a failed fetch or an
empty series. -/
theorem overseas_price_head_or_zero (fetch : Option (List ℚ)) :
    (fetch = Option.none → get_overseas_price fetch = 0) ∧
    (fetch = Option.some [] → get_overseas_price fetch = 0) ∧
    (∀ (p : ℚ) (rest : List ℚ), fetch = Option.some (p :: rest) →
      get_overseas_price fetch = p) := by
  refine ⟨fun h => ?_, fun h => ?_, fun p rest h => ?_⟩
  · rw [h]; rfl
  · rw [h]; rfl
  · rw [h]; rfl

/-- Witness for `overseas_price_head_or_zero` at concrete fetches. -/
theorem overseas_price_witness :
    get_overseas_price Option.none = 0 ∧
    get_overseas_price (Option.some []) = 0 ∧
    get_overseas_price (Option.some [(101 : ℚ), 99]) = 101 :=
  ⟨(overseas_price_head_or_zero Option.none).1 rfl,
   (overseas_price_head_or_zero (Option.some [])).2.1 rfl,
   (overseas_price_head_or_zero (Option.some [(101 : ℚ), 99])).2.2 101 [99] rfl⟩

/-- C6 counterexample: the active `get_domestic_price` parses with Python
`int()`, not `float()`; a node text `"-5"` yields the negative result `-5`,
refuting "its result is always a number >= 0", and the decimal text
`"1,234.56"` is a parse failure yielding `0` rather than a parsed float. -/
theorem domestic_price_negative_counterexample :
    get_domestic_price (Option.some (Option.some "-5")) = -5 ∧
    get_domestic_price (Option.some (Option.some "-5")) < 0 ∧
    get_domestic_price (Option.some (Option.some "1,234.56")) = 0 :=
  ⟨by decide, by decide, by decide⟩

/-- C6 (amended): the domestic price fetch strips thousands separators and
parses the node text as an integer, returning 0 on any failure (network
error, missing node, text that is not a valid integer — decimal text
included) and never raising; the result is the parsed integer, hence
non-negative exactly when that integer is. -/
theorem domestic_price_int_or_zero (fetch : Option (Option String)) :
    (fetch = Option.none → get_domestic_price fetch = 0) ∧
    (fetch = Option.some Option.none → get_domestic_price fetch = 0) ∧
    (∀ txt, fetch = Option.some (Option.some txt) →
      pyInt? (stripCommas txt) = Option.none → get_domestic_price fetch = 0) ∧
    (∀ txt n, fetch = Option.some (Option.some txt) →
      pyInt? (stripCommas txt) = Option.some n → get_domestic_price fetch = n) ∧
    (∀ txt n, fetch = Option.some (Option.some txt) →
      pyInt? (stripCommas txt) = Option.some n → 0 ≤ n →
      0 ≤ get_domestic_price fetch) := by
  refine ⟨fun h => ?_, fun h => ?_, fun txt h hp => ?_, fun txt n h hp => ?_,
    fun txt n h hp hn => ?_⟩
  · rw [h]; rfl
  · rw [h]; rfl
  · rw [h]; simp [get_domestic_price, hp]
  · rw [h]; simp [get_domestic_price, hp]
  · rw [h]; simp only [get_domestic_price, hp]; exact hn

/-- Witness for `domestic_price_int_or_zero` at concrete fetches. -/
theorem domestic_price_witness :
    get_domestic_price Option.none = 0 ∧
    get_domestic_price (Option.some (Option.some "1,000")) = 1000 ∧
    0 ≤ get_domestic_price (Option.some (Option.some "1,000")) :=
  ⟨(domestic_price_int_or_zero Option.none).1 rfl,
   (domestic_price_int_or_zero (Option.some (Option.some "1,000"))).2.2.2.1
     "1,000" 1000 rfl (by decide),
   (domestic_price_int_or_zero (Option.some (Option.some "1,000"))).2.2.2.2
     "1,000" 1000 rfl (by decide) (by decide)⟩

/-- C1: a holding whose resolved price is 0 is skipped entirely — the loop
body makes no write call for it, so neither the price nor the rate field is
touched. -/
theorem price_zero_skips_write (env : Env) (exchange_rate : ℚ) (page : Page)
    (h : resolvedPrice env (page.itemCode.getD "") (page.category.getD "") = 0) :
    processPage env exchange_rate page = [] := by
  simp only [processPage]
  split
  · rfl
  · simp [h]

/-- Oracle where every external fetch fails. -/
def envAllFail : Env :=
  { rateFetch := Option.none, domFetch := fun _ => Option.none,
    ovsFetch := fun _ => Option.none, writeOk := fun _ => true }

/-- Witness for `price_zero_skips_write`: a domestic holding whose scrape
failed resolves to price 0 and produces no events. -/
theorem price_zero_witness :
    resolvedPrice envAllFail "005930" "국내" = 0 ∧
    processPage envAllFail 1300
      { id := "p1", itemCode := Option.some "005930",
        category := Option.some "국내" } = [] :=
  ⟨by decide,
   price_zero_skips_write envAllFail 1300
     { id := "p1", itemCode := Option.some "005930",
       category := Option.some "국내" } (by decide)⟩

/-- C7: a holding with a missing code, a missing category, or an
unrecognized category is left completely untouched — the loop body
produces no write call for it. -/
theorem missing_or_unknown_field_skips (env : Env) (exchange_rate : ℚ) (page : Page)
    (h : page.itemCode = Option.none ∨ page.category = Option.none ∨
      (∀ s, page.category = Option.some s → s ≠ "국내" ∧ s ≠ "해외")) :
    processPage env exchange_rate page = [] := by
  rcases h with h | h | h
  · simp [processPage, falsy, h]
  · simp [processPage, falsy, h]
  · simp only [processPage]
    split
    · rfl
    · rename_i hcond
      cases hcat : page.category with
      | none => exact absurd (by simp [falsy, hcat]) hcond
      | some s =>
        have hs := h s hcat
        simp [resolvedPrice, hcat, hs.1, hs.2]

/-- Witness for `missing_or_unknown_field_skips`: a holding with an
unrecognized category produces no events even though every fetch would
succeed. -/
def envAllGood : Env :=
  { rateFetch := Option.some 1350, domFetch := fun _ => Option.some (Option.some "70,000"),
    ovsFetch := fun _ => Option.some [220], writeOk := fun _ => true }

theorem missing_or_unknown_witness :
    processPage envAllGood 1350
      { id := "p2", itemCode := Option.some "AAPL",
        category := Option.some "미분류" } = [] :=
  missing_or_unknown_field_skips envAllGood 1350
    { id := "p2", itemCode := Option.some "AAPL",
      category := Option.some "미분류" }
    (Or.inr (Or.inr (fun s hs => by
      injection hs with hs
      subst hs
      exact ⟨by decide, by decide⟩)))

/-- The write calls of a concatenation are the two concatenated lists of
write calls. -/
theorem writesOf_append (a b : List Event) :
    writesOf (a ++ b) = writesOf a ++ writesOf b := by
  simp [writesOf, List.filterMap_append]

/-- `update_notion_page` attempts exactly one patch whether or not the
request succeeds. -/
theorem writesOf_update (ok : Bool) (pageId : String) (price exchange_rate : ℚ) :
    writesOf (update_notion_page ok pageId price exchange_rate) =
      [(pageId, updatePayload price exchange_rate)] := by
  cases ok <;> rfl

/-- The resolved price does not depend on the write-outcome oracle. -/
theorem resolvedPrice_writeOk (env : Env) (o : String → Bool) (code category : String) :
    resolvedPrice { env with writeOk := o } code category =
      resolvedPrice env code category := rfl

/-- The write calls of one loop iteration do not depend on the
write-outcome oracle. -/
theorem writesOf_processPage (env : Env) (o1 o2 : String → Bool)
    (exchange_rate : ℚ) (page : Page) :
    writesOf (processPage { env with writeOk := o1 } exchange_rate page) =
      writesOf (processPage { env with writeOk := o2 } exchange_rate page) := by
  simp only [processPage, resolvedPrice_writeOk]
  split
  · rfl
  · split
    · rw [writesOf_update, writesOf_update]
    · rfl

/-- The write calls of the whole loop do not depend on the write-outcome
oracle. -/
theorem writesOf_loop (env : Env) (o1 o2 : String → Bool) (exchange_rate : ℚ) :
    ∀ pages : List Page,
      writesOf ((pages.map (processPage { env with writeOk := o1 } exchange_rate)).flatten) =
        writesOf ((pages.map (processPage { env with writeOk := o2 } exchange_rate)).flatten)
  | [] => rfl
  | page :: rest => by
    simp only [List.map_cons, List.flatten_cons, writesOf_append]
    rw [writesOf_processPage env o1 o2 exchange_rate page,
      writesOf_loop env o1 o2 exchange_rate rest]

/-- Events that are not write attempts do not contribute write calls. -/
theorem writesOf_cons_rateFetched (l : List Event) :
    writesOf (Event.rateFetched :: l) = writesOf l := rfl

theorem writesOf_cons_dbQueried (l : List Event) :
    writesOf (Event.dbQueried :: l) = writesOf l := rfl

/-- C8: one holding's write failure does not abort the run — the failed
patch is caught inside `update_notion_page` and merely logged, so the
sequence of write calls of a whole run (hence the set of holdings
processed) is the same for every pattern of write outcomes. -/
theorem write_failure_does_not_abort (notionApiKey databaseId : Option String)
    (env : Env) (o1 o2 : String → Bool) (pages : List Page) :
    writesOf (mainRun notionApiKey databaseId { env with writeOk := o1 } pages) =
      writesOf (mainRun notionApiKey databaseId { env with writeOk := o2 } pages) := by
  simp only [mainRun]
  split
  · rfl
  · split
    · rfl
    · rw [writesOf_cons_rateFetched, writesOf_cons_rateFetched,
        writesOf_cons_dbQueried, writesOf_cons_dbQueried]
      exact writesOf_loop env o1 o2 (get_usd_to_krw_rate env.rateFetch) pages

/-- C9: a falsy API credential or database identifier makes the run report
the configuration error and exit before any I/O — no rate fetch, no
database query, no write. -/
theorem missing_secret_reports_and_exits (notionApiKey databaseId : Option String)
    (env : Env) (pages : List Page)
    (h : falsy notionApiKey = true ∨ falsy databaseId = true) :
    mainRun notionApiKey databaseId env pages = [Event.configErrorReported] := by
  have hc : (falsy notionApiKey || falsy databaseId) = true := by
    rcases h with h | h <;> simp [h]
  simp [mainRun, hc]

/-- Witness for `missing_secret_reports_and_exits`: with the credential
absent, even a run over a perfectly valid holding performs no I/O. -/
theorem missing_secret_witness :
    falsy Option.none = true ∧
    mainRun Option.none (Option.some "db") envAllGood
      [{ id := "p1", itemCode := Option.some "005930",
         category := Option.some "국내" }] = [Event.configErrorReported] :=
  ⟨rfl,
   missing_secret_reports_and_exits Option.none (Option.some "db") envAllGood
     [{ id := "p1", itemCode := Option.some "005930",
        category := Option.some "국내" }] (Or.inl rfl)⟩

/-- An event of one `update_notion_page` call is the write attempt itself
or the log line of a failed patch. -/
theorem mem_update_notion_page {e : Event} {ok : Bool} {pageId : String}
    {price exchange_rate : ℚ}
    (h : e ∈ update_notion_page ok pageId price exchange_rate) :
    e = Event.writeAttempt pageId (updatePayload price exchange_rate) ∨
      e = Event.writeErrorLogged pageId := by
  cases ok <;> simp [update_notion_page] at h <;> tauto

/-- Every write attempt a loop iteration emits carries the two-field
payload built by `updatePayload`. -/
theorem payload_of_mem_processPage {pageId : String} {payload : List (String × ℚ)}
    {env : Env} {exchange_rate : ℚ} {page : Page}
    (h : Event.writeAttempt pageId payload ∈ processPage env exchange_rate page) :
    ∃ p r, payload = updatePayload p r := by
  simp only [processPage] at h
  split at h
  · cases h
  · split at h
    · rcases mem_update_notion_page h with h' | h'
      · injection h' with h1 h2
        exact ⟨_, _, h2⟩
      · cases h'
    · cases h

/-- C10: every patch a run sends contains exactly the two properties
`현재가` (current price) and `환율` (exchange rate); no other field of the
record is ever part of a write. -/
theorem write_patch_exactly_two_fields (notionApiKey databaseId : Option String)
    (env : Env) (pages : List Page) (pageId : String)
    (payload : List (String × ℚ))
    (h : Event.writeAttempt pageId payload ∈
      mainRun notionApiKey databaseId env pages) :
    (∃ p r, payload = updatePayload p r) ∧
      payload.map Prod.fst = ["현재가", "환율"] := by
  simp only [mainRun] at h
  split at h
  · simp at h
  · split at h
    · simp at h
    · simp only [List.mem_cons] at h
      rcases h with h | h | h
      · cases h
      · cases h
      · rcases List.mem_flatten.mp h with ⟨l, hl, hel⟩
        rcases List.mem_map.mp hl with ⟨page, _, rfl⟩
        obtain ⟨p, r, rfl⟩ := payload_of_mem_processPage hel
        exact ⟨⟨p, r, rfl⟩, rfl⟩

/-- Witness for `write_patch_exactly_two_fields`: a successful run over one
valid domestic holding attempts exactly the two-field patch. -/
theorem write_patch_witness :
    Event.writeAttempt "p1" (updatePayload 70000 1350) ∈
      mainRun (Option.some "key") (Option.some "db") envAllGood
        [{ id := "p1", itemCode := Option.some "005930",
           category := Option.some "국내" }] ∧
    ((∃ p r, updatePayload (70000 : ℚ) 1350 = updatePayload p r) ∧
      (updatePayload (70000 : ℚ) 1350).map Prod.fst = ["현재가", "환율"]) := by
  have hmem : Event.writeAttempt "p1" (updatePayload 70000 1350) ∈
      mainRun (Option.some "key") (Option.some "db") envAllGood
        [{ id := "p1", itemCode := Option.some "005930",
           category := Option.some "국내" }] := by decide
  exact ⟨hmem,
    write_patch_exactly_two_fields (Option.some "key") (Option.some "db")
      envAllGood _ "p1" (updatePayload 70000 1350) hmem⟩

/-- C2: with both gates passed and a positive price, the decided quantity
is `fixedAmount / costPerUnit` when `fixedAmount > 0` (with `costPerUnit`
the rate-normalized price for an overseas holding and the raw price
otherwise), else `fixedQuantity` when positive, else 0 — rounded to 4
decimal places. -/
theorem autoBuy_quantity_formula (h : AutoBuy.Holding) (today : String)
    (isWeekdayMatch : Bool) (price rate : ℚ)
    (he : AutoBuy.eligibilityGate h today = true)
    (hf : AutoBuy.frequencyGate h isWeekdayMatch = true)
    (hp : 0 < price) :
    (AutoBuy.decide h today isWeekdayMatch price rate).2 =
      round4 (if 0 < h.fixedAmount then
          h.fixedAmount /
            (if h.category = AutoBuy.Category.overseas then price * rate else price)
        else if 0 < h.fixedQuantity then h.fixedQuantity else 0) := by
  have hq : (AutoBuy.decide h today isWeekdayMatch price rate).2 =
      round4 (AutoBuy.rawAddQuantity h price rate) := by
    unfold AutoBuy.decide
    rw [he, hf]
    simp only [Bool.and_self, if_true]
    rw [if_pos hp]
    split <;> rfl
  rw [hq]; rfl

/-- A value-averaging domestic holding used to witness the auto-buy
quantity computation. -/
def holdingFixedAmount : AutoBuy.Holding :=
  { autoBuyEnabled := true, buyFrequency := AutoBuy.BuyFrequency.daily,
    lastBuyDate := Option.none, fixedAmount := 10000, fixedQuantity := 0,
    currentQuantity := 0, category := AutoBuy.Category.domestic }

/-- Witness for `autoBuy_quantity_formula`: `fixedAmount = 10000` and a
domestic price of 500 decide exactly 20 units. -/
theorem autoBuy_quantity_witness :
    AutoBuy.eligibilityGate holdingFixedAmount "2026-10-12" = true ∧
    AutoBuy.frequencyGate holdingFixedAmount true = true ∧
    (0 : ℚ) < 500 ∧
    (AutoBuy.decide holdingFixedAmount "2026-10-12" true 500 1300).2 = 20 := by
  refine ⟨by decide, by decide, by decide, ?_⟩
  rw [autoBuy_quantity_formula holdingFixedAmount "2026-10-12" true 500 1300
    (by decide) (by decide) (by decide)]
  norm_num [holdingFixedAmount, round4, round_eq,
    (by decide : AutoBuy.Category.domestic ≠ AutoBuy.Category.overseas)]

/-- On a day already recorded in `lastBuyDate`, the eligibility gate blocks
the decision. -/
theorem decide_not_fired_today (h : AutoBuy.Holding) (today : String)
    (w : Bool) (price rate : ℚ) (hd : h.lastBuyDate = Option.some today) :
    (AutoBuy.decide h today w price rate).1 = false := by
  have he : AutoBuy.eligibilityGate h today = false := by
    simp [AutoBuy.eligibilityGate, hd]
  unfold AutoBuy.decide
  rw [he]
  simp

/-- A run in which the decision does not fire leaves the holding
untouched. -/
theorem applyRun_not_fired (h : AutoBuy.Holding) (today : String) (w : Bool)
    (price rate : ℚ) (hnf : (AutoBuy.decide h today w price rate).1 = false) :
    AutoBuy.applyRun h today w price rate = h := by
  simp [AutoBuy.applyRun, hnf]

/-- A run in which the decision fires stamps `lastBuyDate` with today. -/
theorem applyRun_fired_lastBuyDate (h : AutoBuy.Holding) (today : String)
    (w : Bool) (price rate : ℚ)
    (hf : (AutoBuy.decide h today w price rate).1 = true) :
    (AutoBuy.applyRun h today w price rate).lastBuyDate = Option.some today := by
  simp [AutoBuy.applyRun, hf]

/-- Once `lastBuyDate` is today, no further run of the same day fires. -/
theorem fireCount_zero_of_today (today : String) (h : AutoBuy.Holding)
    (hd : h.lastBuyDate = Option.some today) :
    ∀ runs : List (Bool × ℚ × ℚ), AutoBuy.fireCount today h runs = 0
  | [] => rfl
  | (w, price, rate) :: rest => by
    have hnf := decide_not_fired_today h today w price rate hd
    simp only [AutoBuy.fireCount, hnf,
      applyRun_not_fired h today w price rate hnf]
    simpa using fireCount_zero_of_today today h hd rest

/-- Across any number of same-day pipeline runs the decision fires at most
once for a holding. -/
theorem fireCount_le_one (today : String) :
    ∀ (h : AutoBuy.Holding) (runs : List (Bool × ℚ × ℚ)),
      AutoBuy.fireCount today h runs ≤ 1
  | _, [] => Nat.zero_le 1
  | h, (w, price, rate) :: rest => by
    by_cases hfi : (AutoBuy.decide h today w price rate).1 = true
    · have hld := applyRun_fired_lastBuyDate h today w price rate hfi
      simp only [AutoBuy.fireCount, hfi]
      rw [fireCount_zero_of_today today _ hld rest]
      simp
    · have hnf : (AutoBuy.decide h today w price rate).1 = false :=
        Bool.eq_false_iff.mpr hfi
      simp only [AutoBuy.fireCount, hnf,
        applyRun_not_fired h today w price rate hnf]
      simpa using fireCount_le_one today h rest

/-- A fired decision presupposes the eligibility gate: the flag is on and
`lastBuyDate` is not today. -/
theorem fired_requires_eligibility (h : AutoBuy.Holding) (today : String)
    (w : Bool) (price rate : ℚ)
    (hfi : (AutoBuy.decide h today w price rate).1 = true) :
    h.autoBuyEnabled = true ∧ h.lastBuyDate ≠ Option.some today := by
  unfold AutoBuy.decide at hfi
  by_cases hg : (AutoBuy.eligibilityGate h today &&
      AutoBuy.frequencyGate h w) = true
  · simp only [Bool.and_eq_true] at hg
    have he := hg.1
    simp only [AutoBuy.eligibilityGate, Bool.and_eq_true] at he
    exact ⟨he.1, bne_iff_ne.mp he.2⟩
  · rw [if_neg hg] at hfi
    cases hfi

/-- C3: for a holding and a calendar day the decision fires at most once —
it requires `autoBuyEnabled` and `lastBuyDate != today`, and a firing run
writes today into `lastBuyDate`, so re-running the pipeline any number of
times that day (the written state carried forward unchanged by anything
else) cannot fire twice. -/
theorem autoBuy_fires_at_most_once (today : String) (h : AutoBuy.Holding)
    (runs : List (Bool × ℚ × ℚ)) :
    AutoBuy.fireCount today h runs ≤ 1 ∧
    (∀ (w : Bool) (price rate : ℚ),
      (AutoBuy.decide h today w price rate).1 = true →
      h.autoBuyEnabled = true ∧ h.lastBuyDate ≠ Option.some today) :=
  ⟨fireCount_le_one today h runs,
   fun w price rate hfi => fired_requires_eligibility h today w price rate hfi⟩

/-- A quantity-averaging holding used to witness the once-per-day bound. -/
def holdingFixedQuantity : AutoBuy.Holding :=
  { autoBuyEnabled := true, buyFrequency := AutoBuy.BuyFrequency.daily,
    lastBuyDate := Option.none, fixedAmount := 0, fixedQuantity := 2,
    currentQuantity := 0, category := AutoBuy.Category.domestic }

/-- Witness for `autoBuy_fires_at_most_once`: two identical same-day runs
over an eligible holding fire at most once, and the firing run indeed had
the flag on with `lastBuyDate` not today. -/
theorem autoBuy_once_witness :
    AutoBuy.fireCount "2026-10-12" holdingFixedQuantity
      [(true, 500, 1300), (true, 500, 1300)] ≤ 1 ∧
    (holdingFixedQuantity.autoBuyEnabled = true ∧
      holdingFixedQuantity.lastBuyDate ≠ Option.some "2026-10-12") := by
  refine ⟨(autoBuy_fires_at_most_once "2026-10-12" holdingFixedQuantity
    [(true, 500, 1300), (true, 500, 1300)]).1,
    (autoBuy_fires_at_most_once "2026-10-12" holdingFixedQuantity []).2
      true 500 1300 ?_⟩
  norm_num [AutoBuy.decide, AutoBuy.eligibilityGate, AutoBuy.frequencyGate,
    AutoBuy.rawAddQuantity, holdingFixedQuantity, round4, round_eq]
  decide

end StockUpdater
